import Mathlib

/-!
Shallow embedding of `spotmenu.py` (i3blocks-spotmenu): the media-status
event pipeline.  Python values are modelled as follows: strings are `String`,
dicts as association lists or structures of the accessed keys, `None` as
`Option.none`, raised exceptions as `Except` errors.  Source line numbers
refer to `src/spotmenu.py`.
-/

set_option maxHeartbeats 1000000

/-! ## Python primitives used by the source -/

/-- Python `html.escape(value)` with the default `quote=True`: the sequential
replacements of `&`, `<`, `>`, `"`, `'` are equivalent to this per-character
map (no later pattern occurs in an earlier replacement string). -/
def escape_char (c : Char) : String :=
  if c = '&' then "&amp;"
  else if c = '<' then "&lt;"
  else if c = '>' then "&gt;"
  else if c = '"' then "&quot;"
  else if c = Char.ofNat 39 then "&#x27;"
  else String.singleton c

/-- Python `html.escape` (quote=True). -/
def html_escape (s : String) : String :=
  String.join (s.data.map escape_char)

/-- Python `str.upper` (ASCII fragment, as used here). -/
def py_upper (s : String) : String := s.toUpper

/-- Python `str.lower` (ASCII fragment, as used here). -/
def py_lower (s : String) : String := s.toLower

/-- Python `str.capitalize`: first character uppercased, the rest lowered. -/
def py_capitalize (s : String) : String :=
  match s.data with
  | [] => ""
  | c :: cs => String.mk (c.toUpper :: cs.map Char.toLower)

/-- Python `str.split(sep)` for a one-character separator, on the character
list of the string: `"".split(sep) == [""]`, `"a/b".split("/") == ["a","b"]`. -/
def py_split (sep : Char) : List Char → List (List Char)
  | [] => [[]]
  | c :: cs =>
    let rest := py_split sep cs
    if c = sep then [] :: rest
    else
      match rest with
      | [] => [[c]]
      | p :: ps => (c :: p) :: ps

/-- Python `lst[-1]` on a non-empty list (returns `[]` on the empty list,
which `py_split` never produces). -/
def last_elem : List (List Char) → List Char
  | [] => []
  | [p] => p
  | _ :: p :: ps => last_elem (p :: ps)

/-! ## Formatter (spotmenu.py lines 28-59) -/

/-- One parsed piece of a `string.Formatter` template: literal text, or a
replacement field `{name}` / `{name:filter}` (the filter is the
`format_spec`). -/
inductive TemplatePart
  | lit (s : String)
  | field (name : String) (filter : Option String)
deriving DecidableEq, Repr

/-- Errors raised while rendering: Python `KeyError` from an unknown field
name in `kwargs` or an unknown filter in `_FORMAT_FUNCS`.  Both are the
spec's `ConfigurationError`. -/
inductive FormatError
  | unknownField (name : String)
  | unknownFilter (name : String)
deriving DecidableEq, Repr

/-- The three keyword arguments `show_info` passes to the formatter
(spotmenu.py lines 206-210). -/
structure RenderArgs where
  status : String
  artist : String
  title : String
deriving DecidableEq, Repr

/-- `Formatter.__init__` state (spotmenu.py lines 37-43): the parsed format
string, the copied status-icon mapping, and the markup-escape flag. -/
structure Formatter where
  format_string : List TemplatePart
  status_icons : List (String × String)
  markup_escape : Bool

/-- `string.Formatter.get_value` on the keyword arguments: unknown field
names raise `KeyError` (spec: `ConfigurationError`). -/
def get_value (name : String) (args : RenderArgs) : Except FormatError String :=
  if name = "status" then .ok args.status
  else if name = "artist" then .ok args.artist
  else if name = "title" then .ok args.title
  else .error (.unknownField name)

/-- `Formatter._format_func__status_icon` (spotmenu.py lines 58-59):
`self._status_icons.get(status, "?")`. -/
def Formatter.status_icon (fmt : Formatter) (status : String) : String :=
  match fmt.status_icons.lookup status with
  | some glyph => glyph
  | none => "?"

/-- `Formatter._FORMAT_FUNCS` lookup (spotmenu.py lines 30-35, 50-52),
including the string-valued `"icon"` entry resolved to the
`status_icon` method. -/
def Formatter.lookupFilter (fmt : Formatter) (spec : String) : Option (String → String) :=
  if spec = "upper" then some py_upper
  else if spec = "lower" then some py_lower
  else if spec = "capitalize" then some py_capitalize
  else if spec = "icon" then some fmt.status_icon
  else none

/-- `Formatter.format_field` (spotmenu.py lines 48-56): apply the filter
named by the format spec (if any) first — an unknown name raises `KeyError`
— then escape markup if `self._markup_escape`. -/
def Formatter.format_field (fmt : Formatter) (value : String) (format_spec : Option String) :
    Except FormatError String :=
  match format_spec with
  | none => .ok (if fmt.markup_escape then html_escape value else value)
  | some spec =>
    match fmt.lookupFilter spec with
    | none => .error (.unknownFilter spec)
    | some f => .ok (if fmt.markup_escape then html_escape (f value) else f value)

/-- `string.Formatter.vformat` over the parsed parts: literals are copied,
fields are resolved with `get_value` and processed with `format_field`,
left to right, concatenating the results. -/
def Formatter.renderParts (fmt : Formatter) (args : RenderArgs) :
    List TemplatePart → Except FormatError String
  | [] => .ok ""
  | .lit s :: rest =>
    match fmt.renderParts args rest with
    | .ok r => .ok (s ++ r)
    | .error e => .error e
  | .field name filt :: rest =>
    match get_value name args with
    | .error e => .error e
    | .ok v =>
      match fmt.format_field v filt with
      | .error e => .error e
      | .ok v2 =>
        match fmt.renderParts args rest with
        | .ok r => .ok (v2 ++ r)
        | .error e => .error e

/-- `Formatter.__call__` (spotmenu.py lines 45-46): format the stored
template with the given keyword arguments. -/
def Formatter.render (fmt : Formatter) (args : RenderArgs) : Except FormatError String :=
  fmt.renderParts args fmt.format_string

/-- The default template `"{artist} – {title}"` (spotmenu.py line 68),
as parsed by `string.Formatter`. -/
def default_format_parts : List TemplatePart :=
  [.field "artist" none, .lit " – ", .field "title" none]

/-- The default status-icon mapping (spotmenu.py lines 73-77). -/
def default_status_icons : List (String × String) :=
  [("Playing", ""), ("Paused", ""), ("Stopped", "")]

/-- The formatter built from `DEFAULT_CONFIG` (spotmenu.py lines 64-85,
102-106): default format, default icons, `markup_escape = False`. -/
def default_formatter : Formatter :=
  { format_string := default_format_parts
    status_icons := default_status_icons
    markup_escape := false }

/-- The four keys of `_FORMAT_FUNCS` (spotmenu.py lines 30-35). -/
def recognized_filters : List String :=
  ["upper", "lower", "capitalize", "icon"]

/-! ## SpotifyBlocklet (spotmenu.py lines 62-221) -/

/-- The two keys of the MPRIS `Metadata` dict that `show_info` reads
(spotmenu.py lines 204-205): `xesam:artist` (a list of names) and
`xesam:title`. -/
structure TrackMetadata where
  artist : List String
  title : String
deriving DecidableEq, Repr

/-- The immutable part of `SpotifyBlocklet.__init__` (spotmenu.py lines
102-108): the formatter and the `dedupe` flag. -/
structure Blocklet where
  formatter : Formatter
  dedupe : Bool

/-- `self._prev_info` (spotmenu.py line 109): the last printed line, or
`none` initially and after `on_name_owner_changed` clears it. -/
abbrev PrevInfo := Option String

/-- The keyword arguments `show_info` passes to the formatter (spotmenu.py
lines 204-210): `artist = ", ".join(metadata["xesam:artist"])`,
`title = metadata["xesam:title"]`, and the status. -/
def render_args (status : String) (metadata : TrackMetadata) : RenderArgs :=
  { status := status
    artist := String.intercalate ", " metadata.artist
    title := metadata.title }

/-- `SpotifyBlocklet.show_info` (spotmenu.py lines 203-219), with the GUI
absent (`self.gui is None` on the core path): join the artists with `", "`,
render, and print iff `not only_if_changed or self._prev_info != info`;
on printing, record the line in `_prev_info`.  Returns the printed lines
and the new `_prev_info`. -/
def show_info (b : Blocklet) (prev : PrevInfo) (status : String) (metadata : TrackMetadata)
    (only_if_changed : Bool) : Except FormatError (List String × PrevInfo) :=
  match b.formatter.render (render_args status metadata) with
  | .error e => .error e
  | .ok info =>
    if ¬only_if_changed ∨ prev ≠ some info then
      .ok ([info], some info)
    else
      .ok ([], prev)

/-- The `changed_properties` payload of a `PropertiesChanged` signal:
each of the two keys the handler indexes may be absent. -/
structure ChangedProps where
  playbackStatus : Option String
  metadata : Option TrackMetadata
deriving DecidableEq, Repr

/-- Errors escaping a signal handler: a Python `KeyError` on the named
dict key, or a render error. -/
inductive HandlerError
  | keyError (key : String)
  | formatError (e : FormatError)
deriving DecidableEq, Repr

/-- `SpotifyBlocklet.on_properties_changed` (spotmenu.py lines 176-182):
index `changed_properties["PlaybackStatus"]` then
`changed_properties["Metadata"]` (a missing key raises `KeyError`), then
`show_info` with `only_if_changed=self._dedupe`. -/
def on_properties_changed (b : Blocklet) (prev : PrevInfo) (cp : ChangedProps) :
    Except HandlerError (List String × PrevInfo) :=
  match cp.playbackStatus with
  | none => .error (.keyError "PlaybackStatus")
  | some status =>
    match cp.metadata with
    | none => .error (.keyError "Metadata")
    | some metadata =>
      match show_info b prev status metadata b.dedupe with
      | .error e => .error (.formatError e)
      | .ok r => .ok r

/-- `SpotifyBlocklet.on_name_owner_changed` (spotmenu.py lines 184-188):
`if old_owner and not new_owner: print(); self._prev_info = None`.  The
blank `print()` is the emission of the empty line. -/
def on_name_owner_changed (prev : PrevInfo) (_name old_owner new_owner : String) :
    List String × PrevInfo :=
  if old_owner ≠ "" ∧ new_owner = "" then ([""], none)
  else ([], prev)

/-- The two property reads `show_initial_info` performs
(spotmenu.py lines 197-201): the current `PlaybackStatus` and `Metadata`
of the bus object. -/
structure BusState where
  playbackStatus : String
  metadata : TrackMetadata
deriving DecidableEq, Repr

/-- `SpotifyBlocklet.show_initial_info` (spotmenu.py lines 197-201):
synchronously read both properties and call `show_info` with the default
`only_if_changed=False`. -/
def show_initial_info (b : Blocklet) (prev : PrevInfo) (bus : BusState) :
    Except FormatError (List String × PrevInfo) :=
  show_info b prev bus.playbackStatus bus.metadata false

/-- A signal delivered by the bus to one of the two subscribed handlers
(spotmenu.py lines 160-174). -/
inductive BusEvent
  | propertiesChanged (cp : ChangedProps)
  | nameOwnerChanged (name old_owner new_owner : String)
deriving DecidableEq, Repr

/-- Dispatch of one signal by the GLib main loop: an exception escaping a
handler is reported by the binding and dispatch continues — nothing is
printed and `_prev_info` is unchanged for that event. -/
def handle_event (b : Blocklet) (prev : PrevInfo) : BusEvent → List String × PrevInfo
  | .propertiesChanged cp =>
    match on_properties_changed b prev cp with
    | .ok r => r
    | .error _ => ([], prev)
  | .nameOwnerChanged name old_owner new_owner =>
    on_name_owner_changed prev name old_owner new_owner

/-- Serialized dispatch of a sequence of signals on the single loop thread,
accumulating the printed lines. -/
def run_events (b : Blocklet) (prev : PrevInfo) : List BusEvent → List String × PrevInfo
  | [] => ([], prev)
  | e :: es =>
    let r := handle_event b prev e
    let r2 := run_events b r.2 es
    (r.1 ++ r2.1, r2.2)

/-- `SpotifyBlocklet._run` after a successful connect (spotmenu.py lines
131-140): subscribe, perform the initial synchronous read and emit via
`show_initial_info`, then `loop.run()` dispatches the arriving signals in
order.  If the initial read/render raises, the loop is never entered. -/
def run_session (b : Blocklet) (bus : BusState) (events : List BusEvent) (prev : PrevInfo) :
    List String × PrevInfo :=
  match show_initial_info b prev bus with
  | .error _ => ([], prev)
  | .ok r =>
    let r2 := run_events b r.2 events
    (r.1 ++ r2.1, r2.2)

/-! ## The outer run loop (spotmenu.py lines 142-158) -/

/-- The outcome of one `self._run()` call: a normal return, a raised
`dbus.exceptions.DBusException`, a `KeyboardInterrupt`, or any other
exception. -/
inductive RunOutcome
  | okReturn
  | dbusError
  | interrupt
  | otherError
deriving DecidableEq, Repr

/-- An exception propagating out of `SpotifyBlocklet.run` to its caller. -/
inductive RunError
  | uncaught
deriving DecidableEq, Repr

/-- The `while True: try: self._run() ...` loop of `SpotifyBlocklet.run`
(spotmenu.py lines 148-157), scripted by the outcome of each successive
`_run` call.  Returns the number of `_run` attempts made, or the
propagated exception.  With `forever=False` the `finally: break` ends the
loop after the first attempt and — per Python semantics of `break` inside
`finally` — discards any in-flight exception, so every outcome returns
normally.  With `forever=True`: `DBusException` is caught (`time.sleep(1)`)
and the loop retries; `KeyboardInterrupt` breaks; any other exception
propagates. -/
def run_loop (forever : Bool) : List RunOutcome → Except RunError Nat
  | [] => .ok 0
  | r :: rest =>
    if forever then
      match r with
      | .okReturn =>
        match run_loop forever rest with
        | .ok n => .ok (n + 1)
        | .error e => .error e
      | .dbusError =>
        match run_loop forever rest with
        | .ok n => .ok (n + 1)
        | .error e => .error e
      | .interrupt => .ok 1
      | .otherError => .error .uncaught
    else
      .ok 1

/-! ## Album-art URL rewrite (spotmenu.py lines 353-356) -/

/-- `GUIManager.old_url_to_new`: `url.split("/")[-1]` prefixed with
`"https://i.scdn.co/image/"`. -/
def old_url_to_new (url : String) : String :=
  let new_base_url := "https://i.scdn.co/image/"
  let song_id := String.mk (last_elem (py_split '/' url.data))
  new_base_url ++ song_id

/-! ## Fixtures for concrete runs -/

/-- A blocklet built from `DEFAULT_CONFIG`: default formatter, `dedupe = True`
(spotmenu.py lines 64-85, 94-109). -/
def default_blocklet : Blocklet :=
  { formatter := default_formatter, dedupe := true }

/-- A formatter whose template is just `"{title}"`, so the rendered line is
the title verbatim — used to feed chosen rendered lines through the emit
path. -/
def title_formatter : Formatter :=
  { format_string := [.field "title" none], status_icons := [], markup_escape := false }

/-- `title_formatter` with dedupe enabled. -/
def title_blocklet : Blocklet :=
  { formatter := title_formatter, dedupe := true }

/-- `title_formatter` with dedupe disabled. -/
def title_blocklet_nodedupe : Blocklet :=
  { formatter := title_formatter, dedupe := false }

/-- A `PropertiesChanged` event whose rendered line (under
`title_formatter`) is exactly `t`. -/
def title_event (t : String) : BusEvent :=
  .propertiesChanged { playbackStatus := some "Playing", metadata := some { artist := [], title := t } }

/-- A formatter whose template `"{artist:bold}"` names a filter outside
`_FORMAT_FUNCS`. -/
def bad_filter_formatter : Formatter :=
  { format_string := [.field "artist" (some "bold")], status_icons := [], markup_escape := false }

/-! ## Helper lemmas -/

/-- A name outside `recognized_filters` misses every branch of the
`_FORMAT_FUNCS` lookup. -/
theorem lookupFilter_none (fmt : Formatter) (f : String) (h : f ∉ recognized_filters) :
    fmt.lookupFilter f = none := by
  simp only [recognized_filters, List.mem_cons, List.not_mem_nil, or_false, not_or] at h
  obtain ⟨h1, h2, h3, h4⟩ := h
  simp [Formatter.lookupFilter, h1, h2, h3, h4]

/-- Rendering any part list containing a field with an unknown filter name
produces an error. -/
theorem renderParts_error_of_bad_filter (fmt : Formatter) (args : RenderArgs)
    (n f : String) (hf : fmt.lookupFilter f = none) :
    ∀ parts : List TemplatePart, TemplatePart.field n (some f) ∈ parts →
      ∃ e, fmt.renderParts args parts = .error e := by
  intro parts
  induction parts with
  | nil => intro h; exact absurd h (List.not_mem_nil _)
  | cons p rest ih =>
    intro hmem
    rcases List.mem_cons.mp hmem with hhead | htail
    · subst hhead
      cases hv : get_value n args with
      | error e => exact ⟨e, by simp [Formatter.renderParts, hv]⟩
      | ok v =>
        exact ⟨.unknownFilter f,
          by simp [Formatter.renderParts, hv, Formatter.format_field, hf]⟩
    · obtain ⟨e, he⟩ := ih htail
      cases p with
      | lit s => exact ⟨e, by simp [Formatter.renderParts, he]⟩
      | field n2 f2 =>
        cases hv : get_value n2 args with
        | error e2 => exact ⟨e2, by simp [Formatter.renderParts, hv]⟩
        | ok v =>
          cases hff : fmt.format_field v f2 with
          | error e2 => exact ⟨e2, by simp [Formatter.renderParts, hv, hff]⟩
          | ok v2 => exact ⟨e, by simp [Formatter.renderParts, hv, hff, he]⟩

/-- `py_split` never returns the empty list (Python `split` always returns
at least one piece). -/
theorem py_split_ne_nil (sep : Char) : ∀ l : List Char, py_split sep l ≠ []
  | [] => by simp [py_split]
  | c :: cs => by
    simp only [py_split]
    by_cases h : c = sep
    · simp [h]
    · simp only [h, if_false]
      cases hr : py_split sep cs with
      | nil => simp
      | cons p ps => simp

/-- Splitting a separator-free list yields the single piece. -/
theorem py_split_no_sep (sep : Char) : ∀ ys : List Char, sep ∉ ys → py_split sep ys = [ys]
  | [], _ => rfl
  | c :: cs, h => by
    have hc : ¬c = sep := fun e => h (by simp [e])
    have hr := py_split_no_sep sep cs (fun m => h (List.mem_cons_of_mem c m))
    simp [py_split, hc, hr]

/-- Appending a separator-free suffix extends the final piece of the split
and leaves the other pieces unchanged. -/
theorem py_split_append (sep : Char) (ys : List Char) (hy : sep ∉ ys) :
    ∀ xs : List Char, ∃ l p, py_split sep (xs ++ ys) = l ++ [p ++ ys] ∧
      py_split sep xs = l ++ [p]
  | [] => ⟨[], [], by simp [py_split_no_sep sep ys hy, py_split], rfl⟩
  | c :: cs => by
    obtain ⟨l, p, h1, h2⟩ := py_split_append sep ys hy cs
    by_cases hc : c = sep
    · subst hc
      exact ⟨[] :: l, p, by simp [py_split, h1], by simp [py_split, h2]⟩
    · cases l with
      | nil =>
        exact ⟨[], c :: p, by simp [py_split, h1, hc], by simp [py_split, h2, hc]⟩
      | cons q l2 =>
        exact ⟨(c :: q) :: l2, p, by simp [py_split, h1, hc], by simp [py_split, h2, hc]⟩

/-- Python `lst[-1]` of a list ending in `p` is `p`. -/
theorem last_elem_append (p : List Char) : ∀ l : List (List Char), last_elem (l ++ [p]) = p
  | [] => rfl
  | [_] => rfl
  | _ :: q2 :: l2 => last_elem_append p (q2 :: l2)

/-- No piece of a split contains the separator. -/
theorem py_split_pieces_no_sep (sep : Char) (l : List Char) :
    ∀ p : List Char, p ∈ py_split sep l → sep ∉ p := by
  induction l with
  | nil =>
    intro p hp
    simp [py_split] at hp
    simp [hp]
  | cons c cs ih =>
    intro p hp
    by_cases hc : c = sep
    · subst hc
      simp only [py_split, if_pos rfl] at hp
      rcases List.mem_cons.mp hp with h | h
      · simp [h]
      · exact ih p h
    · cases hr : py_split sep cs with
      | nil => exact absurd hr (py_split_ne_nil sep cs)
      | cons p0 ps =>
        simp only [py_split, hc, if_false, hr] at hp
        rcases List.mem_cons.mp hp with h | h
        · subst h
          intro hmem
          rcases List.mem_cons.mp hmem with h2 | h2
          · exact hc h2.symm
          · exact ih p0 (hr ▸ List.mem_cons_self p0 ps) h2
        · exact ih p (hr ▸ List.mem_cons_of_mem p0 h)

/-- `last_elem` of a non-empty list is one of its members. -/
theorem last_elem_mem : ∀ l : List (List Char), l ≠ [] → last_elem l ∈ l
  | [], h => absurd rfl h
  | [p], _ => by simp [last_elem]
  | _ :: q2 :: l2, _ =>
    List.mem_cons_of_mem _ (last_elem_mem (q2 :: l2) (by simp))

/-- The final piece of a split never contains the separator. -/
theorem sep_not_in_last_elem (sep : Char) (l : List Char) :
    sep ∉ last_elem (py_split sep l) :=
  py_split_pieces_no_sep sep l _ (last_elem_mem _ (py_split_ne_nil sep l))

/-! ## Claim theorems -/

/-- C1: with dedupe enabled, the emit path (`show_info` with
`only_if_changed = true`) prints a rendered line iff it differs from the
stored `_prev_info` (always when `_prev_info` is `none`) and records it on
printing; feeding rendered lines `[A, A, B, A]` through property-changed
events prints `[A, B, A]` with dedupe enabled and all four with dedupe
disabled. -/
theorem C1_dedupe_gate :
    (∀ (b : Blocklet) (prev : PrevInfo) (status : String) (md : TrackMetadata) (info : String),
      b.formatter.render (render_args status md) = .ok info →
      show_info b prev status md true =
        .ok (if prev = some info then ([], prev) else ([info], some info))) ∧
    (run_events title_blocklet none
        [title_event "A", title_event "A", title_event "B", title_event "A"]).1 =
      ["A", "B", "A"] ∧
    (run_events title_blocklet_nodedupe none
        [title_event "A", title_event "A", title_event "B", title_event "A"]).1 =
      ["A", "A", "B", "A"] := by
  refine ⟨?_, by rfl, by rfl⟩
  intro b prev status md info h
  simp only [show_info, h]
  by_cases hp : prev = some info
  · simp [hp]
  · simp [hp]

/-- Witness for C1: the general emit rule applied at a concrete suppressed
repeat. -/
theorem C1_dedupe_gate_witness :
    show_info title_blocklet (some "A") "Playing" { artist := [], title := "A" } true =
      .ok (if (some "A" : PrevInfo) = some "A" then ([], some "A") else (["A"], some "A")) :=
  C1_dedupe_gate.1 title_blocklet (some "A") "Playing" { artist := [], title := "A" } "A" (by rfl)

/-- C3 counterexample: a name-owner-changed signal whose new owner is empty
but whose old owner is also empty emits nothing and keeps `_prev_info`,
contrary to the claim that every empty-new-owner signal emits one blank
line and clears the stored line. -/
theorem C3_counterexample :
    on_name_owner_changed (some "A – B") "org.mpris.MediaPlayer2.spotify" "" "" =
      ([], some "A – B") := by rfl

/-- C3 (amended): for every name-owner-changed signal whose OLD owner is
non-empty and whose new owner is empty, the handler emits exactly one blank
line (regardless of dedupe state) and clears `_prev_info`; consequently a
subsequent render identical to the line emitted before the signal is
emitted again rather than suppressed. -/
theorem C3_owner_vanished (prev : PrevInfo) (name old_owner new_owner : String)
    (hold : old_owner ≠ "") (hnew : new_owner = "") :
    on_name_owner_changed prev name old_owner new_owner = ([""], none) ∧
    (∀ (b : Blocklet) (status : String) (md : TrackMetadata) (info : String),
      b.formatter.render (render_args status md) = .ok info →
      show_info b none status md true = .ok ([info], some info)) := by
  constructor
  · simp [on_name_owner_changed, hold, hnew]
  · intro b status md info h
    simp [show_info, h]

/-- Witness for C3: player exit at a concrete signal, then the repeat of
the previous line is printed again. -/
theorem C3_owner_vanished_witness :
    on_name_owner_changed (some "A") "org.mpris.MediaPlayer2.spotify" ":1.5" "" =
      ([""], none) ∧
    show_info title_blocklet none "Playing" { artist := [], title := "A" } true =
      .ok (["A"], some "A") :=
  ⟨(C3_owner_vanished (some "A") "org.mpris.MediaPlayer2.spotify" ":1.5" ""
      (by decide) rfl).1,
   (C3_owner_vanished (some "A") "org.mpris.MediaPlayer2.spotify" ":1.5" ""
      (by decide) rfl).2 title_blocklet "Playing" { artist := [], title := "A" } "A" (by rfl)⟩

/-- C4 counterexample: with dedupe disabled, one emission starting from
`_prev_info = none` leaves `_prev_info = some "T"` — the retained
last-emitted-line field IS changed, contrary to "never stores state". -/
theorem C4_counterexample :
    on_properties_changed title_blocklet_nodedupe none
      { playbackStatus := some "Playing", metadata := some { artist := [], title := "T" } } =
      .ok (["T"], some "T") := by rfl

/-- C4 (amended): when dedupe is disabled, the emit operation always prints
the rendered line AND still records it as the last-emitted line —
`_prev_info` is set to the printed line on every emission. -/
theorem C4_nodedupe_prints_and_records (b : Blocklet) (prev : PrevInfo) (status : String)
    (md : TrackMetadata) (info : String) (hd : b.dedupe = false)
    (h : b.formatter.render (render_args status md) = .ok info) :
    on_properties_changed b prev
      { playbackStatus := some status, metadata := some md } = .ok ([info], some info) := by
  simp only [on_properties_changed, hd, show_info, h]
  simp

/-- Witness for C4: the amended rule at a concrete input. -/
theorem C4_nodedupe_prints_and_records_witness :
    on_properties_changed title_blocklet_nodedupe (some "T")
      { playbackStatus := some "Playing", metadata := some { artist := [], title := "T" } } =
      .ok (["T"], some "T") :=
  C4_nodedupe_prints_and_records title_blocklet_nodedupe (some "T") "Playing"
    { artist := [], title := "T" } "T" rfl (by rfl)

/-- C7 counterexample: a property-changed payload missing the `Metadata`
key makes the handler fail with `KeyError "Metadata"` — no fallback
synchronous re-read happens and nothing is rendered or emitted, contrary
to the claim. -/
theorem C7_counterexample :
    on_properties_changed title_blocklet (some "A")
      { playbackStatus := some "Paused", metadata := none } =
      .error (.keyError "Metadata") := by rfl

/-- C7 (amended): a payload missing `Metadata` fails with
`KeyError "Metadata"`, one missing `PlaybackStatus` fails with
`KeyError "PlaybackStatus"` (indexed first), and at the loop level such an
event prints nothing and leaves `_prev_info` unchanged — there is no
fallback re-read and no emission for that event. -/
theorem C7_missing_key_fails :
    (∀ (b : Blocklet) (prev : PrevInfo) (st : String),
      on_properties_changed b prev { playbackStatus := some st, metadata := none } =
        .error (.keyError "Metadata")) ∧
    (∀ (b : Blocklet) (prev : PrevInfo) (md : Option TrackMetadata),
      on_properties_changed b prev { playbackStatus := none, metadata := md } =
        .error (.keyError "PlaybackStatus")) ∧
    (∀ (b : Blocklet) (prev : PrevInfo) (st : String),
      handle_event b prev (.propertiesChanged { playbackStatus := some st, metadata := none }) =
        ([], prev)) :=
  ⟨fun _ _ _ => rfl, fun _ _ _ => rfl, fun _ _ _ => rfl⟩

/-- C2 counterexample: on a (re)connect while `_prev_info` already holds the
line the current state renders to, `show_initial_info` prints it again —
the initial emission is NOT subject to dedupe, contrary to the claim that
it is suppressed when equal to the retained last-emitted line. -/
theorem C2_counterexample :
    show_initial_info default_blocklet (some "A, B – T")
      { playbackStatus := "Playing", metadata := { artist := ["A", "B"], title := "T" } } =
      .ok (["A, B – T"], some "A, B – T") := by rfl

/-- C2 (amended): on every successful connect the loop synchronously reads
`PlaybackStatus` and `Metadata`, renders them, and emits the line
UNCONDITIONALLY (the initial emission bypasses the dedupe check, though it
is recorded as the last-emitted line) before processing any further
signals; in particular for `status=Playing`, `artist=["A","B"]`,
`title="T"` and the default format, the first printed line of the session
is `"A, B – T"` whatever signals follow. -/
theorem C2_initial_read_emits :
    (∀ (b : Blocklet) (prev : PrevInfo) (bus : BusState) (info : String),
      b.formatter.render (render_args bus.playbackStatus bus.metadata) = .ok info →
      show_initial_info b prev bus = .ok ([info], some info)) ∧
    (∀ events : List BusEvent,
      (run_session default_blocklet
          { playbackStatus := "Playing", metadata := { artist := ["A", "B"], title := "T" } }
          events none).1.head? = some "A, B – T") := by
  constructor
  · intro b prev bus info h
    simp [show_initial_info, show_info, h]
  · intro events
    have h0 : show_initial_info default_blocklet none
        { playbackStatus := "Playing", metadata := { artist := ["A", "B"], title := "T" } } =
        .ok (["A, B – T"], some "A, B – T") := by rfl
    simp only [run_session, h0]
    rfl

/-- Witness for C2: the unconditional initial emission at a concrete
already-seen line. -/
theorem C2_initial_read_emits_witness :
    show_initial_info default_blocklet (some "A, B – T")
      { playbackStatus := "Paused", metadata := { artist := ["A", "B"], title := "T" } } =
      .ok (["A, B – T"], some "A, B – T") :=
  C2_initial_read_emits.1 default_blocklet (some "A, B – T")
    { playbackStatus := "Paused", metadata := { artist := ["A", "B"], title := "T" } }
    "A, B – T" (by rfl)

/-- C5 counterexample: in single-run mode (`forever=False`) a
`DBusException` raised by `_run` is caught (`time.sleep(1)`), after which
`finally: break` ends the loop and `run` returns normally after exactly one
attempt — the failure does NOT propagate to the caller, contrary to the
claim. -/
theorem C5_counterexample :
    run_loop false [RunOutcome.dbusError] = .ok 1 := by rfl

/-- C5 (amended): in single-run mode a connection failure is terminal —
exactly one `_run` attempt is made, with no retry whatever would follow —
but the exception is swallowed (caught, then discarded by the `break`
inside `finally`), so `run` returns normally instead of propagating it. -/
theorem C5_single_run_swallows (rest : List RunOutcome) :
    run_loop false (RunOutcome.dbusError :: rest) = .ok 1 := by rfl

/-- C6: every template containing a field whose filter name is outside
`{upper, lower, capitalize, icon}` fails to render — the unknown-name
lookup in `_FORMAT_FUNCS` raises at render time (spec: fails fast with
`ConfigurationError`), so `render` never returns a string. -/
theorem C6_unknown_filter_fails (fmt : Formatter) (args : RenderArgs) (n f : String)
    (hf : f ∉ recognized_filters)
    (hmem : TemplatePart.field n (some f) ∈ fmt.format_string) :
    ∃ e, fmt.render args = .error e := by
  unfold Formatter.render
  exact renderParts_error_of_bad_filter fmt args n f (lookupFilter_none fmt f hf)
    fmt.format_string hmem

/-- Witness for C6: a template using the unknown filter `bold` fails. -/
theorem C6_unknown_filter_fails_witness :
    ∃ e, bad_filter_formatter.render
      { status := "Playing", artist := "A", title := "T" } = .error e :=
  C6_unknown_filter_fails bad_filter_formatter
    { status := "Playing", artist := "A", title := "T" } "artist" "bold"
    (by decide) (by decide)

/-- C8: for every field with a recognized filter, `format_field` applies
the filter to the value first and then escapes markup iff `markup_escape`
is enabled; concretely, artist `"Tom & Jerry"` under the default template
renders to `"Tom &amp; Jerry – T"` (containing `"Tom &amp; Jerry"`) with
escaping on, and to `"Tom & Jerry – T"` (literal ampersand) with it off. -/
theorem C8_filter_then_escape :
    (∀ (fmt : Formatter) (v f : String) (fn : String → String),
      fmt.lookupFilter f = some fn →
      fmt.format_field v (some f) =
        .ok (if fmt.markup_escape then html_escape (fn v) else fn v)) ∧
    ({ default_formatter with markup_escape := true } : Formatter).render
      { status := "Playing", artist := "Tom & Jerry", title := "T" } =
      .ok "Tom &amp; Jerry – T" ∧
    default_formatter.render
      { status := "Playing", artist := "Tom & Jerry", title := "T" } =
      .ok "Tom & Jerry – T" := by
  refine ⟨?_, by rfl, by rfl⟩
  intro fmt v f fn h
  simp [Formatter.format_field, h]

/-- Witness for C8: the filter-then-escape rule at the `upper` filter. -/
theorem C8_filter_then_escape_witness :
    default_formatter.format_field "tom" (some "upper") =
      .ok (if default_formatter.markup_escape then html_escape (py_upper "tom")
        else py_upper "tom") :=
  C8_filter_then_escape.1 default_formatter "tom" "upper" py_upper rfl

/-- C10: every name-owner-changed signal whose new owner is non-empty emits
nothing and leaves `_prev_info` unchanged — a reappearing player does not
reset deduplication. -/
theorem C10_owner_nonempty_noop (prev : PrevInfo) (name old_owner new_owner : String)
    (h : new_owner ≠ "") :
    on_name_owner_changed prev name old_owner new_owner = ([], prev) := by
  simp [on_name_owner_changed, h]

/-- Witness for C10: a concrete owner-change with a non-empty new owner. -/
theorem C10_owner_nonempty_noop_witness :
    on_name_owner_changed (some "A – B") "org.mpris.MediaPlayer2.spotify" ":1.5" ":1.7" =
      ([], some "A – B") :=
  C10_owner_nonempty_noop (some "A – B") "org.mpris.MediaPlayer2.spotify" ":1.5" ":1.7"
    (by decide)

/-- C9: the album-art URL rewrite prefixes the final `/`-separated path
segment of its input with `https://i.scdn.co/image/`; it maps
`https://open.spotify.com/image/abc123` to
`https://i.scdn.co/image/abc123`, and it is idempotent on every input:
applying it to its own output yields the same string. -/
theorem C9_url_rewrite :
    old_url_to_new "https://open.spotify.com/image/abc123" =
      "https://i.scdn.co/image/abc123" ∧
    ∀ url : String, old_url_to_new (old_url_to_new url) = old_url_to_new url := by
  refine ⟨by rfl, ?_⟩
  intro url
  have hs : '/' ∉ last_elem (py_split '/' url.data) := sep_not_in_last_elem '/' url.data
  obtain ⟨l, p, h1, h2⟩ :=
    py_split_append '/' (last_elem (py_split '/' url.data)) hs
      "https://i.scdn.co/image/".data
  have hbase : last_elem (py_split '/' "https://i.scdn.co/image/".data) = [] := by rfl
  rw [h2, last_elem_append] at hbase
  simp only [old_url_to_new]
  congr 1
  have hdata : ("https://i.scdn.co/image/" ++
      String.mk (last_elem (py_split '/' url.data))).data =
      "https://i.scdn.co/image/".data ++ last_elem (py_split '/' url.data) := by
    rw [String.data_append]
  rw [hdata, h1, last_elem_append, hbase]
  simp
